import Mathlib

/-!
Verification of the deadline-tracker core against its specification.

The embedding follows the source (src/src/App.jsx, the multi-tracker
variant, and src/unnamed/part_000, the single-tracker variant; both share
the same time-math helpers):

* JavaScript millisecond instants are modelled as `Int`; the real-valued
  percentage is modelled as `Rat`.
* `Math.floor(ms / 1000)` on an integer `ms` is floor division, which is
  `Int` division by the positive literal `1000` in Lean (Euclidean
  division coincides with floor division for a positive divisor).
* `dayjs(text).valueOf()` is abstracted as a parameter
  `dayjsValueOf : String → Option Int`, `none` standing for `NaN`.
* `Math.random()` is abstracted as a parameter `rand : Rat` with
  `0 ≤ rand < 1`.
* The persisted JSON blob is modelled by the inductive `JValue`;
  `JSON.parse` failure (or an absent key) is the `none` case of
  `Option JValue`.
-/

/-- Source: `const clamp = (n, min, max) => Math.max(min, Math.min(n, max))`. -/
def clamp {α : Type} [LinearOrder α] (n lo hi : α) : α :=
  max lo (min n hi)

/-- The four derived figures computed by `TrackerCard` (App.jsx lines
129-132) and by the `useMemo` block of the single-tracker variant
(part_000 lines 166-169). -/
structure Progress where
  totalMs : Int
  elapsedMs : Int
  remainingMs : Int
  percent : Rat

/-- Source (App.jsx 129-132):
`totalMs = Math.max(1, deadline - startTime)`,
`elapsedMs = clamp(now - startTime, 0, totalMs)`,
`remainingMs = Math.max(0, deadline - now)`,
`percent = clamp((elapsedMs / totalMs) * 100, 0, 100)`. -/
def deriveProgress (startTime deadline now : Int) : Progress :=
  let totalMs : Int := max 1 (deadline - startTime)
  let elapsedMs : Int := clamp (now - startTime) 0 totalMs
  let remainingMs : Int := max 0 (deadline - now)
  let percent : Rat := clamp (((elapsedMs : Rat) / (totalMs : Rat)) * 100) 0 100
  { totalMs := totalMs, elapsedMs := elapsedMs,
    remainingMs := remainingMs, percent := percent }

/-- The duration components computed by `msToDHMS`. -/
structure DHMS where
  days : Nat
  hours : Nat
  minutes : Nat
  seconds : Nat
deriving DecidableEq

/-- Source (App.jsx 12-19):
`totalSeconds = Math.max(0, Math.floor(ms / 1000))`,
`days = Math.floor(totalSeconds / 86400)`,
`hours = Math.floor((totalSeconds % 86400) / 3600)`,
`minutes = Math.floor((totalSeconds % 3600) / 60)`,
`seconds = totalSeconds % 60`. -/
def msToDHMS (ms : Int) : DHMS :=
  let totalSeconds : Nat := (max 0 (ms / 1000)).toNat
  { days := totalSeconds / 86400
    hours := (totalSeconds % 86400) / 3600
    minutes := (totalSeconds % 3600) / 60
    seconds := totalSeconds % 60 }

section ClampLemmas

variable {α : Type} [LinearOrder α]

theorem le_clamp_self (n lo hi : α) : lo ≤ clamp n lo hi :=
  le_max_left _ _

theorem clamp_le_self (n : α) {lo hi : α} (h : lo ≤ hi) : clamp n lo hi ≤ hi :=
  max_le h (min_le_right _ _)

theorem clamp_mono_left {a b : α} (lo hi : α) (h : a ≤ b) :
    clamp a lo hi ≤ clamp b lo hi :=
  max_le_max le_rfl (min_le_min h le_rfl)

end ClampLemmas

/-- Claim C1: for every triple of integer instants with
`deadline > startTime`, the progress derivation returns
`totalMs = max(1, deadline - startTime)` (which equals
`deadline - startTime` and is positive, so the division defining
`percent` is by a nonzero quantity),
`elapsedMs = clamp(now - startTime, 0, totalMs)`,
`remainingMs = max(0, deadline - now)`, and
`percent = clamp((elapsedMs / totalMs) * 100, 0, 100)`. -/
theorem deriveProgress_correct (startTime deadline now : Int)
    (h : startTime < deadline) :
    (deriveProgress startTime deadline now).totalMs
        = max 1 (deadline - startTime) ∧
    (deriveProgress startTime deadline now).totalMs = deadline - startTime ∧
    0 < (deriveProgress startTime deadline now).totalMs ∧
    (deriveProgress startTime deadline now).elapsedMs
        = clamp (now - startTime) 0 (deadline - startTime) ∧
    (deriveProgress startTime deadline now).remainingMs
        = max 0 (deadline - now) ∧
    (deriveProgress startTime deadline now).percent
        = clamp
            ((((clamp (now - startTime) 0 (deadline - startTime) : Int) : Rat)
                / ((deadline - startTime : Int) : Rat)) * 100) 0 100 := by
  have h1 : (1 : Int) ≤ deadline - startTime := by omega
  have hmax : max 1 (deadline - startTime) = deadline - startTime :=
    max_eq_right h1
  refine ⟨rfl, ?_, ?_, ?_, rfl, ?_⟩
  · simp only [deriveProgress, hmax]
  · simp only [deriveProgress, hmax]; omega
  · simp only [deriveProgress, hmax]
  · simp only [deriveProgress, hmax]

/-- Witness for `deriveProgress_correct` at the spec scenario
`startTime = 0`, `deadline = 100000`, `now = 25000`. -/
theorem deriveProgress_correct_witness :
    (0 : Int) < 100000 ∧
    ((deriveProgress 0 100000 25000).totalMs = max 1 (100000 - 0) ∧
     (deriveProgress 0 100000 25000).totalMs = 100000 - 0 ∧
     0 < (deriveProgress 0 100000 25000).totalMs ∧
     (deriveProgress 0 100000 25000).elapsedMs
         = clamp (25000 - 0) 0 (100000 - 0) ∧
     (deriveProgress 0 100000 25000).remainingMs = max 0 (100000 - 25000) ∧
     (deriveProgress 0 100000 25000).percent
         = clamp ((((clamp (25000 - 0) 0 (100000 - 0) : Int) : Rat)
             / ((100000 - 0 : Int) : Rat)) * 100) 0 100) :=
  ⟨by decide, deriveProgress_correct 0 100000 25000 (by decide)⟩

/-- Claim C3: for fixed `startTime ≤ deadline` and every `now` with
`startTime ≤ now ≤ deadline`, the derived percent lies in `[0, 100]`;
and for `now1 ≤ now2` in that range the percent is monotonically
non-decreasing. -/
theorem percent_bounded_monotone (startTime deadline : Int)
    (hsd : startTime ≤ deadline) (now now1 now2 : Int)
    (hn1 : startTime ≤ now) (hn2 : now ≤ deadline)
    (h1 : startTime ≤ now1) (h12 : now1 ≤ now2) (h2 : now2 ≤ deadline) :
    (0 ≤ (deriveProgress startTime deadline now).percent ∧
      (deriveProgress startTime deadline now).percent ≤ 100) ∧
    (deriveProgress startTime deadline now1).percent
      ≤ (deriveProgress startTime deadline now2).percent := by
  constructor
  · exact ⟨le_clamp_self _ _ _, clamp_le_self _ (by norm_num)⟩
  · show clamp _ 0 100 ≤ clamp _ 0 100
    apply clamp_mono_left
    have ht : (0 : Rat) < ((max 1 (deadline - startTime) : Int) : Rat) := by
      have : (1 : Int) ≤ max 1 (deadline - startTime) := le_max_left _ _
      exact_mod_cast lt_of_lt_of_le Int.zero_lt_one this
    have he : (clamp (now1 - startTime) 0 (max 1 (deadline - startTime)) : Int)
        ≤ clamp (now2 - startTime) 0 (max 1 (deadline - startTime)) :=
      clamp_mono_left _ _ (by omega)
    have hec : ((clamp (now1 - startTime) 0 (max 1 (deadline - startTime)) : Int) : Rat)
        ≤ ((clamp (now2 - startTime) 0 (max 1 (deadline - startTime)) : Int) : Rat) := by
      exact_mod_cast he
    exact mul_le_mul_of_nonneg_right
      ((div_le_div_iff_of_pos_right ht).mpr hec) (by norm_num)

/-- Witness for `percent_bounded_monotone` at
`startTime = 0`, `deadline = 100`, `now = 50`, `now1 = 10`, `now2 = 60`. -/
theorem percent_bounded_monotone_witness :
    (0 : Int) ≤ 100 ∧ (0 : Int) ≤ 50 ∧ (50 : Int) ≤ 100 ∧
    (0 : Int) ≤ 10 ∧ (10 : Int) ≤ 60 ∧ (60 : Int) ≤ 100 ∧
    ((0 ≤ (deriveProgress 0 100 50).percent ∧
       (deriveProgress 0 100 50).percent ≤ 100) ∧
     (deriveProgress 0 100 10).percent ≤ (deriveProgress 0 100 60).percent) :=
  ⟨by decide, by decide, by decide, by decide, by decide, by decide,
   percent_bounded_monotone 0 100 (by decide) 50 10 60
     (by decide) (by decide) (by decide) (by decide) (by decide)⟩

/-- Claim C4: for `deadline > startTime` and every `now ≥ deadline`
(so in particular for all larger `now` as well), the derivation yields
`remainingMs = 0` (never negative after expiry) and `percent = 100`. -/
theorem expired_zero_remaining_full_percent (startTime deadline now : Int)
    (h : startTime < deadline) (hn : deadline ≤ now) :
    (deriveProgress startTime deadline now).remainingMs = 0 ∧
    (deriveProgress startTime deadline now).percent = 100 := by
  have h1 : (1 : Int) ≤ deadline - startTime := by omega
  have hmax : max 1 (deadline - startTime) = deadline - startTime :=
    max_eq_right h1
  constructor
  · show max 0 (deadline - now) = 0
    omega
  · show clamp _ 0 100 = 100
    have he : clamp (now - startTime) 0 (max 1 (deadline - startTime))
        = deadline - startTime := by
      rw [hmax]
      unfold clamp
      omega
    rw [he]
    have hne : ((deadline - startTime : Int) : Rat) ≠ 0 := by
      have : (0 : Int) < deadline - startTime := by omega
      exact_mod_cast this.ne.symm
    rw [hmax, div_self hne, one_mul]
    unfold clamp
    norm_num

/-- Witness for `expired_zero_remaining_full_percent` at
`startTime = 0`, `deadline = 100`, `now = 150`. -/
theorem expired_zero_remaining_full_percent_witness :
    (0 : Int) < 100 ∧ (100 : Int) ≤ 150 ∧
    ((deriveProgress 0 100 150).remainingMs = 0 ∧
     (deriveProgress 0 100 150).percent = 100) :=
  ⟨by decide, by decide,
   expired_zero_remaining_full_percent 0 100 150 (by decide) (by decide)⟩

/-- Claim C5: for every integer `remainingMs` (negative inputs treated as
zero via the `max 0`), the decomposition is the strict floor-based one
stated by the spec, `hours ≤ 23`, `minutes ≤ 59`, `seconds ≤ 59`, `days`
is unbounded (no modulus is applied to it), and the parts round-trip:
`days*86400 + hours*3600 + minutes*60 + seconds = floor(max(0, ms)/1000)`. -/
theorem msToDHMS_decomposition (ms : Int) :
    (msToDHMS ms).days = (max 0 (ms / 1000)).toNat / 86400 ∧
    (msToDHMS ms).hours = ((max 0 (ms / 1000)).toNat % 86400) / 3600 ∧
    (msToDHMS ms).minutes = ((max 0 (ms / 1000)).toNat % 3600) / 60 ∧
    (msToDHMS ms).seconds = (max 0 (ms / 1000)).toNat % 60 ∧
    (msToDHMS ms).hours ≤ 23 ∧
    (msToDHMS ms).minutes ≤ 59 ∧
    (msToDHMS ms).seconds ≤ 59 ∧
    (msToDHMS ms).days * 86400 + (msToDHMS ms).hours * 3600 +
      (msToDHMS ms).minutes * 60 + (msToDHMS ms).seconds
        = ((max 0 ms) / 1000).toNat ∧
    (msToDHMS ((86400000 : Int) * (msToDHMS ms).days)).days = (msToDHMS ms).days := by
  refine ⟨rfl, rfl, rfl, rfl, ?_, ?_, ?_, ?_, ?_⟩ <;> simp only [msToDHMS] <;> omega

/-- The fixed quote list (App.jsx 25-36). -/
def QUOTES : List String :=
  ["Small steps, every second.",
   "Your future self is watching.",
   "Momentum loves consistency.",
   "Done is better than perfect.",
   "Focus on the next minute.",
   "Tiny progress beats no progress.",
   "Show up for your goal.",
   "Make time your ally.",
   "Every tick is a chance.",
   "You’ve got this—keep going."]

/-- JavaScript `String.prototype.trim`: strip leading and trailing
whitespace.  Defined by structural recursion on the character list so
that it evaluates inside the kernel. -/
def jsTrim (s : String) : String :=
  String.mk (((s.data.dropWhile Char.isWhitespace).reverse.dropWhile
    Char.isWhitespace).reverse)

/-- A persisted tracker record (App.jsx 251-257). -/
structure Tracker where
  id : Int
  goal : String
  startTime : Int
  deadline : Int
  quoteIndex : Int
deriving DecidableEq

/-- The spec error taxonomy for `create`; each value corresponds to one
`alert` + early return branch of `handleAddTracker` (App.jsx 239-250). -/
inductive CreateError where
  | EmptyGoal
  | InvalidDeadline
  | PastDeadline
deriving DecidableEq

/-- The component state touched by the handlers (App.jsx 206-210):
`goalInput`, `deadlineInput`, the tracker collection and the mode flag. -/
structure AppState where
  goalInput : String
  deadlineInput : String
  trackers : List Tracker
  mode : String
deriving DecidableEq

/-- Source (App.jsx 236-261): validation order is goal text, then
deadline text (`!deadlineInput || Number.isNaN(d)`), then
`d <= Date.now()`; on success the new tracker is appended and the two
inputs are cleared.  `dayjsValueOf` abstracts `dayjs(text).valueOf()`
(`none` = `NaN`), `nowMs` abstracts `Date.now()`, and `rand` abstracts
`Math.random()`.  The rejection is the synchronously returned second
component. -/
def handleAddTracker (dayjsValueOf : String → Option Int) (nowMs : Int)
    (rand : Rat) (s : AppState) : AppState × Option CreateError :=
  if jsTrim s.goalInput = "" then (s, some CreateError.EmptyGoal)
  else
    match (if s.deadlineInput = "" then none else dayjsValueOf s.deadlineInput) with
    | none => (s, some CreateError.InvalidDeadline)
    | some d =>
        if d ≤ nowMs then (s, some CreateError.PastDeadline)
        else
          let newTracker : Tracker :=
            { id := nowMs, goal := jsTrim s.goalInput, startTime := nowMs,
              deadline := d,
              quoteIndex := Int.floor (rand * (QUOTES.length : Rat)) }
          ({ s with trackers := s.trackers ++ [newTracker],
                    goalInput := "", deadlineInput := "" }, none)

/-- Source (App.jsx 269-271): `t.filter((tr) => tr.id !== id)`. -/
def handleRemove (id : Int) (s : AppState) : AppState :=
  { s with trackers := s.trackers.filter (fun tr => tr.id != id) }

/-- Source (App.jsx 263-267). -/
def handleReset (s : AppState) : AppState :=
  { s with trackers := [], goalInput := "", deadlineInput := "" }

/-- Source (App.jsx 210): `setMode` is the raw `useState` setter; no
validation is performed on the stored value. -/
def setMode (m : String) (s : AppState) : AppState :=
  { s with mode := m }

/-- The only two in-app callers of `setMode` (App.jsx 340 and 346). -/
def clickCircular (s : AppState) : AppState :=
  setMode "circular" s

/-- See `clickCircular`. -/
def clickBar (s : AppState) : AppState :=
  setMode "bar" s

/-- Claim C2: `create` rejects with `EmptyGoal` when the trimmed goal is
empty, with `InvalidDeadline` when the deadline text is empty or does not
parse, and with `PastDeadline` when the parsed deadline is not strictly
after the current instant; every rejection returns the state completely
unchanged, synchronously (the error is the function result itself). -/
theorem handleAddTracker_rejections (dayjsValueOf : String → Option Int)
    (nowMs : Int) (rand : Rat) (s : AppState) :
    (jsTrim s.goalInput = "" →
      handleAddTracker dayjsValueOf nowMs rand s
        = (s, some CreateError.EmptyGoal)) ∧
    (jsTrim s.goalInput ≠ "" →
      (s.deadlineInput = "" ∨ dayjsValueOf s.deadlineInput = none) →
      handleAddTracker dayjsValueOf nowMs rand s
        = (s, some CreateError.InvalidDeadline)) ∧
    (∀ d : Int, jsTrim s.goalInput ≠ "" → s.deadlineInput ≠ "" →
      dayjsValueOf s.deadlineInput = some d → d ≤ nowMs →
      handleAddTracker dayjsValueOf nowMs rand s
        = (s, some CreateError.PastDeadline)) ∧
    (∀ e : CreateError,
      (handleAddTracker dayjsValueOf nowMs rand s).2 = some e →
      (handleAddTracker dayjsValueOf nowMs rand s).1 = s) := by
  refine ⟨?_, ?_, ?_, ?_⟩
  · intro h
    simp [handleAddTracker, h]
  · intro hg hd
    rcases hd with hd | hd <;> simp [handleAddTracker, hg, hd]
  · intro d hg hd hp hle
    simp [handleAddTracker, hg, hd, hp, hle]
  · intro e he
    by_cases hg : jsTrim s.goalInput = ""
    · simp [handleAddTracker, hg]
    · rcases hd : (if s.deadlineInput = ""
          then none else dayjsValueOf s.deadlineInput) with _ | d
      · simp [handleAddTracker, hg, hd]
      · by_cases hle : d ≤ nowMs
        · simp [handleAddTracker, hg, hd, hle]
        · simp [handleAddTracker, hg, hd, hle] at he

/-- Witness for `handleAddTracker_rejections`: each rejection branch hit
at a concrete input. -/
theorem handleAddTracker_rejections_witness :
    handleAddTracker (fun _ => none) 0 0 ⟨" ", "x", [], "circular"⟩
        = (⟨" ", "x", [], "circular"⟩, some CreateError.EmptyGoal) ∧
    handleAddTracker (fun _ => none) 0 0 ⟨"g", "x", [], "circular"⟩
        = (⟨"g", "x", [], "circular"⟩, some CreateError.InvalidDeadline) ∧
    handleAddTracker (fun _ => some 10) 10 0 ⟨"g", "x", [], "circular"⟩
        = (⟨"g", "x", [], "circular"⟩, some CreateError.PastDeadline) ∧
    (handleAddTracker (fun _ => none) 0 0 ⟨" ", "x", [], "circular"⟩).1
        = ⟨" ", "x", [], "circular"⟩ :=
  ⟨(handleAddTracker_rejections (fun _ => none) 0 0 _).1 (by decide),
   (handleAddTracker_rejections (fun _ => none) 0 0 _).2.1 (by decide)
     (Or.inr rfl),
   (handleAddTracker_rejections (fun _ => some 10) 10 0 _).2.2.1 10
     (by decide) (by decide) rfl (by decide),
   (handleAddTracker_rejections (fun _ => none) 0 0 _).2.2.2
     CreateError.EmptyGoal (by decide)⟩

/-- A concrete parse collaborator: every deadline text parses to the
instant 1000000. -/
def exampleParse : String → Option Int := fun _ => some 1000000

/-- A concrete starting state with goal text "a" and an empty collection. -/
def exampleState : AppState := ⟨"a", "x", [], "circular"⟩

/-- Counterexample to claim C6 as stated: `id` is allocated as
`Date.now()`, so two successful sequential creates at the same
millisecond instant (here both at `nowMs = 5`) with distinct goals "a"
and "b" produce two trackers with the SAME id 5. -/
theorem create_same_instant_duplicate_ids :
    (handleAddTracker exampleParse 5 0 exampleState).2 = none ∧
    (handleAddTracker exampleParse 5 0
        { (handleAddTracker exampleParse 5 0 exampleState).1 with
            goalInput := "b", deadlineInput := "y" }).2 = none ∧
    ((handleAddTracker exampleParse 5 0
        { (handleAddTracker exampleParse 5 0 exampleState).1 with
            goalInput := "b", deadlineInput := "y" }).1.trackers.map
      Tracker.goal) = ["a", "b"] ∧
    ((handleAddTracker exampleParse 5 0
        { (handleAddTracker exampleParse 5 0 exampleState).1 with
            goalInput := "b", deadlineInput := "y" }).1.trackers.map
      Tracker.id) = [5, 5] := by
  decide


/-- Abbreviation for the tracker record built by a successful
`handleAddTracker` call (App.jsx 251-257). -/
def newTrackerOf (nowMs : Int) (rand : Rat) (goalText : String)
    (d : Int) : Tracker :=
  { id := nowMs, goal := jsTrim goalText, startTime := nowMs, deadline := d,
    quoteIndex := Int.floor (rand * (QUOTES.length : Rat)) }

theorem handleAddTracker_success (dayjsValueOf : String → Option Int)
    (nowMs : Int) (rand : Rat) (s : AppState) (dl : Int)
    (hg : jsTrim s.goalInput ≠ "") (hd : s.deadlineInput ≠ "")
    (hp : dayjsValueOf s.deadlineInput = some dl) (hfut : nowMs < dl) :
    handleAddTracker dayjsValueOf nowMs rand s =
      ({ goalInput := "", deadlineInput := "",
         trackers := s.trackers ++ [newTrackerOf nowMs rand s.goalInput dl],
         mode := s.mode }, none) := by
  simp [handleAddTracker, newTrackerOf, hg, hd, hp, show ¬ dl ≤ nowMs by omega]

/-- Claim C6 (amended): because `id` is allocated as `Date.now()`,
id-freshness holds only when creation instants are distinct.  Two
sequential successful creates whose current instants satisfy
`now1 ≠ now2` produce two trackers with distinct ids appended in
insertion order, and if the starting collection has pairwise-distinct
ids none of which equals `now1` or `now2`, the resulting collection
again has pairwise-distinct ids.  (As stated — for arbitrary instants —
the claim fails: see the counterexample, two creates within the same
millisecond share an id.) -/
theorem create_twice_distinct_instants_distinct_ids
    (dayjsValueOf : String → Option Int) (now1 now2 : Int)
    (rand1 rand2 : Rat) (s : AppState) (g2 d2 : String) (dl1 dl2 : Int)
    (hid : now1 ≠ now2)
    (hg1 : jsTrim s.goalInput ≠ "") (hd1 : s.deadlineInput ≠ "")
    (hp1 : dayjsValueOf s.deadlineInput = some dl1) (hfut1 : now1 < dl1)
    (hg2 : jsTrim g2 ≠ "") (hd2 : d2 ≠ "")
    (hp2 : dayjsValueOf d2 = some dl2) (hfut2 : now2 < dl2)
    (huniq : s.trackers.Pairwise (fun a b => a.id ≠ b.id))
    (hfresh : ∀ t ∈ s.trackers, t.id ≠ now1 ∧ t.id ≠ now2) :
    ∃ t1 t2 : Tracker,
      (handleAddTracker dayjsValueOf now1 rand1 s).2 = none ∧
      (handleAddTracker dayjsValueOf now2 rand2
          { (handleAddTracker dayjsValueOf now1 rand1 s).1 with
              goalInput := g2, deadlineInput := d2 }).2 = none ∧
      (handleAddTracker dayjsValueOf now2 rand2
          { (handleAddTracker dayjsValueOf now1 rand1 s).1 with
              goalInput := g2, deadlineInput := d2 }).1.trackers
        = s.trackers ++ [t1, t2] ∧
      t1.id = now1 ∧ t2.id = now2 ∧ t1.id ≠ t2.id ∧
      ((handleAddTracker dayjsValueOf now2 rand2
          { (handleAddTracker dayjsValueOf now1 rand1 s).1 with
              goalInput := g2, deadlineInput := d2 }).1.trackers).Pairwise
        (fun a b => a.id ≠ b.id) := by
  have h1 := handleAddTracker_success dayjsValueOf now1 rand1 s dl1
    hg1 hd1 hp1 hfut1
  have hstate : ({ (handleAddTracker dayjsValueOf now1 rand1 s).1 with
      goalInput := g2, deadlineInput := d2 } : AppState) =
      { goalInput := g2, deadlineInput := d2,
        trackers := s.trackers ++ [newTrackerOf now1 rand1 s.goalInput dl1],
        mode := s.mode } := by
    rw [h1]
  have h2 := handleAddTracker_success dayjsValueOf now2 rand2
    { goalInput := g2, deadlineInput := d2,
      trackers := s.trackers ++ [newTrackerOf now1 rand1 s.goalInput dl1],
      mode := s.mode } dl2 hg2 hd2 hp2 hfut2
  refine ⟨newTrackerOf now1 rand1 s.goalInput dl1,
          newTrackerOf now2 rand2 g2 dl2, ?_, ?_, ?_, rfl, rfl, hid, ?_⟩
  · rw [h1]
  · rw [hstate, h2]
  · rw [hstate, h2]
    simp [List.append_assoc]
  · rw [hstate, h2]
    show ((s.trackers ++ [_]) ++ [_]).Pairwise _
    rw [List.append_assoc]
    refine List.pairwise_append.mpr ⟨huniq, ?_, ?_⟩
    · refine List.Pairwise.cons ?_ (List.Pairwise.cons (by simp) List.Pairwise.nil)
      intro b hb
      rcases List.mem_singleton.mp hb with rfl
      exact hid
    · intro a ha b hb
      rcases List.mem_cons.mp hb with rfl | hb
      · exact (hfresh a ha).1
      · rcases List.mem_singleton.mp hb with rfl
        exact (hfresh a ha).2

/-- Witness for `create_twice_distinct_instants_distinct_ids` with two
creates at instants 5 and 6 on the empty collection. -/
theorem create_twice_distinct_instants_distinct_ids_witness :
    (5 : Int) ≠ 6 ∧
    ∃ t1 t2 : Tracker,
      (handleAddTracker exampleParse 5 0 exampleState).2 = none ∧
      (handleAddTracker exampleParse 6 0
          { (handleAddTracker exampleParse 5 0 exampleState).1 with
              goalInput := "b", deadlineInput := "y" }).2 = none ∧
      (handleAddTracker exampleParse 6 0
          { (handleAddTracker exampleParse 5 0 exampleState).1 with
              goalInput := "b", deadlineInput := "y" }).1.trackers
        = exampleState.trackers ++ [t1, t2] ∧
      t1.id = 5 ∧ t2.id = 6 ∧ t1.id ≠ t2.id ∧
      ((handleAddTracker exampleParse 6 0
          { (handleAddTracker exampleParse 5 0 exampleState).1 with
              goalInput := "b", deadlineInput := "y" }).1.trackers).Pairwise
        (fun a b => a.id ≠ b.id) :=
  ⟨by decide,
   create_twice_distinct_instants_distinct_ids exampleParse 5 6 0 0
     exampleState "b" "y" 1000000 1000000 (by decide) (by decide) (by decide)
     rfl (by decide) (by decide) (by decide) rfl (by decide)
     List.Pairwise.nil (by simp [exampleState])⟩

/-- Counterexample to claim C7 as stated: `remove` filters out EVERY
tracker with the given id, so if a pre-existing tracker already carries
the id that `create` allocates (here id 5, because `id = Date.now()` can
collide), `create` followed by `remove` of the returned id also deletes
the pre-existing tracker, and the collection is NOT the pre-create one. -/
theorem create_remove_collides_with_existing_id :
    (handleAddTracker exampleParse 5 0
        ⟨"g", "x", [⟨5, "old", 0, 10, 0⟩], "circular"⟩).2 = none ∧
    (handleRemove 5 (handleAddTracker exampleParse 5 0
        ⟨"g", "x", [⟨5, "old", 0, 10, 0⟩], "circular"⟩).1).trackers = [] ∧
    (⟨"g", "x", [⟨5, "old", 0, 10, 0⟩], "circular"⟩ : AppState).trackers
        ≠ [] := by
  decide

/-- Claim C7 (amended): provided the id allocated by `create` (the
current instant) does not already occur in the collection, `create`
followed by `remove` of that id restores the pre-create collection in
order and contents; `remove` of an absent id is a no-op (the whole state
is unchanged, not an error); and `remove` always yields a sublist of the
collection, preserving the relative order of the remaining trackers.
(Without the freshness proviso the claim fails: see the counterexample.) -/
theorem remove_after_create_and_remove_noop
    (dayjsValueOf : String → Option Int) (nowMs : Int) (rand : Rat)
    (s : AppState) (i : Int) (dl : Int)
    (hg : jsTrim s.goalInput ≠ "") (hd : s.deadlineInput ≠ "")
    (hp : dayjsValueOf s.deadlineInput = some dl) (hfut : nowMs < dl)
    (hfresh : ∀ t ∈ s.trackers, t.id ≠ nowMs)
    (habsent : ∀ t ∈ s.trackers, t.id ≠ i) :
    (handleRemove nowMs
        (handleAddTracker dayjsValueOf nowMs rand s).1).trackers
      = s.trackers ∧
    handleRemove i s = s ∧
    (∀ j : Int, ((handleRemove j s).trackers).Sublist s.trackers) := by
  refine ⟨?_, ?_, ?_⟩
  · rw [handleAddTracker_success dayjsValueOf nowMs rand s dl hg hd hp hfut]
    show ((s.trackers ++ [newTrackerOf nowMs rand s.goalInput dl]).filter _)
        = s.trackers
    rw [List.filter_append]
    have hnil : [newTrackerOf nowMs rand s.goalInput dl].filter
        (fun tr => tr.id != nowMs) = [] := by
      simp [newTrackerOf]
    rw [hnil, List.append_nil]
    apply List.filter_eq_self.mpr
    intro t ht
    simpa using hfresh t ht
  · have hkeep : s.trackers.filter (fun tr => tr.id != i) = s.trackers := by
      apply List.filter_eq_self.mpr
      intro t ht
      simpa using habsent t ht
    unfold handleRemove
    rw [hkeep]
  · intro j
    exact List.filter_sublist _

/-- Witness for `remove_after_create_and_remove_noop`: create at instant
5 on the empty collection, remove id 5; remove of id 7 is a no-op. -/
theorem remove_after_create_and_remove_noop_witness :
    (handleRemove 5 (handleAddTracker exampleParse 5 0 exampleState).1).trackers
        = exampleState.trackers ∧
    handleRemove 7 exampleState = exampleState ∧
    (∀ j : Int, ((handleRemove j exampleState).trackers).Sublist
        exampleState.trackers) :=
  remove_after_create_and_remove_noop exampleParse 5 0 exampleState 7 1000000
    (by decide) (by decide) rfl (by decide) (by simp [exampleState])
    (by simp [exampleState])

/-- A parsed JSON value, the result of a successful `JSON.parse`. -/
inductive JValue where
  | null
  | bool (b : Bool)
  | num (n : Int)
  | str (s : String)
  | arr (items : List JValue)
  | obj (fields : List (String × JValue))

/-- Property lookup on a field list (first match wins). -/
def lookupField : List (String × JValue) → String → Option JValue
  | [], _ => none
  | (k, v) :: rest, key => if k = key then some v else lookupField rest key

/-- JavaScript property access `s.key`: `none` models `undefined`
(also for non-object receivers, whose access either yields `undefined`
or throws inside the surrounding `try`, with the same net effect of
leaving the corresponding state at its default). -/
def getField (j : JValue) (key : String) : Option JValue :=
  match j with
  | JValue.obj fields => lookupField fields key
  | _ => none

/-- JavaScript truthiness of a parsed JSON value, used by
`if (s.mode)`. -/
def truthy : JValue → Bool
  | JValue.null => false
  | JValue.bool b => b
  | JValue.num n => n != 0
  | JValue.str s => s != ""
  | JValue.arr _ => true
  | JValue.obj _ => true

/-- `JSON.stringify` of one tracker record. -/
def encodeTracker (t : Tracker) : JValue :=
  JValue.obj [("id", JValue.num t.id), ("goal", JValue.str t.goal),
    ("startTime", JValue.num t.startTime),
    ("deadline", JValue.num t.deadline),
    ("quoteIndex", JValue.num t.quoteIndex)]

/-- Reading a tracker record back out of a parsed JSON object.  The app
itself performs no such decoding (rehydrated array elements are used
as-is), so this is the observation that the encoding loses nothing. -/
def decodeTracker (j : JValue) : Option Tracker :=
  match getField j "id", getField j "goal", getField j "startTime",
      getField j "deadline", getField j "quoteIndex" with
  | some (JValue.num i), some (JValue.str g), some (JValue.num st),
      some (JValue.num dl), some (JValue.num q) =>
    some { id := i, goal := g, startTime := st, deadline := dl,
           quoteIndex := q }
  | _, _, _, _, _ => none

/-- Source (App.jsx 224-227): the persisted snapshot
`JSON.stringify({ trackers, mode })`. -/
def serializeState (trackers : List Tracker) (mode : String) : JValue :=
  JValue.obj [("trackers", JValue.arr (trackers.map encodeTracker)),
    ("mode", JValue.str mode)]

/-- Source (App.jsx 218): `if (Array.isArray(s.trackers))
setTrackers(s.trackers)` — otherwise the state keeps its initial `[]`. -/
def loadTrackersField (s : JValue) : List JValue :=
  match getField s "trackers" with
  | some (JValue.arr xs) => xs
  | _ => []

/-- Source (App.jsx 219): `if (s.mode) setMode(s.mode)` — otherwise the
state keeps its initial `"circular"`. -/
def loadModeField (s : JValue) : JValue :=
  match getField s "mode" with
  | some m => if truthy m then m else JValue.str "circular"
  | none => JValue.str "circular"

/-- Source (App.jsx 213-222): the load effect.  `none` models a missing
key or a `JSON.parse` throw (caught, leaving the defaults); the result
is the pair (tracker array as stored, mode value). -/
def loadState : Option JValue → List JValue × JValue
  | none => ([], JValue.str "circular")
  | some s => (loadTrackersField s, loadModeField s)

/-- Counterexample to claim C8 as stated: on the structurally invalid
blob `{"trackers": 42, "mode": "bar"}` the load does NOT fall back to
the default mode `circular`; each field falls back independently, so the
junk trackers field yields the empty collection while the mode `bar` is
kept. -/
theorem loadState_invalid_trackers_keeps_mode :
    loadState (some (JValue.obj
        [("trackers", JValue.num 42), ("mode", JValue.str "bar")]))
      = ([], JValue.str "bar") ∧
    JValue.str "bar" ≠ JValue.str "circular" := by
  refine ⟨rfl, ?_⟩
  intro h
  injection h with h2
  exact absurd h2 (by decide)

/-- Claim C8 (amended): `deserialize` is a total function (it never
raises); `serialize` then `deserialize` reproduces the collection and
the mode (and decoding the stored records recovers every tracker, so the
encoding is lossless); a missing/unparsable blob yields the empty
collection and `circular`; and each field falls back INDEPENDENTLY — a
blob whose trackers field is not an array yields the empty collection,
and a blob whose mode field is absent or falsy yields `circular` — but a
structurally invalid blob with a truthy mode field keeps that mode
rather than resetting it to `circular` (see the counterexample). -/
theorem loadState_fallback_and_roundtrip
    (trackers : List Tracker) (mode : String) (hm : mode ≠ "")
    (s : JValue)
    (htr : ∀ xs : List JValue, getField s "trackers" ≠ some (JValue.arr xs))
    (hmode : ∀ m : JValue, getField s "mode" = some m → truthy m = false) :
    loadState none = ([], JValue.str "circular") ∧
    loadState (some (serializeState trackers mode))
        = (trackers.map encodeTracker, JValue.str mode) ∧
    (∀ t : Tracker, decodeTracker (encodeTracker t) = some t) ∧
    (loadState (some s)).1 = [] ∧
    (loadState (some s)).2 = JValue.str "circular" := by
  refine ⟨rfl, ?_, ?_, ?_, ?_⟩
  · have hmt : truthy (JValue.str mode) = true := by
      simp [truthy, hm]
    simp [loadState, loadTrackersField, loadModeField, serializeState,
      getField, lookupField, hmt]
  · intro t
    rfl
  · show loadTrackersField s = []
    unfold loadTrackersField
    rcases hf : getField s "trackers" with _ | v
    · rfl
    · cases v with
      | arr xs => exact absurd hf (htr xs)
      | null => rfl
      | bool b => rfl
      | num n => rfl
      | str st => rfl
      | obj fs => rfl
  · show loadModeField s = JValue.str "circular"
    unfold loadModeField
    rcases hf : getField s "mode" with _ | m
    · rfl
    · simp [hmode m hf]

/-- Witness for `loadState_fallback_and_roundtrip` with a one-tracker
collection, mode `bar`, and the garbage blob `3`. -/
theorem loadState_fallback_and_roundtrip_witness :
    ("bar" : String) ≠ "" ∧
    (loadState none = ([], JValue.str "circular") ∧
     loadState (some (serializeState [⟨1, "g", 0, 10, 2⟩] "bar"))
         = ([⟨1, "g", 0, 10, 2⟩].map encodeTracker, JValue.str "bar") ∧
     (∀ t : Tracker, decodeTracker (encodeTracker t) = some t) ∧
     (loadState (some (JValue.num 3))).1 = [] ∧
     (loadState (some (JValue.num 3))).2 = JValue.str "circular") :=
  ⟨by decide,
   loadState_fallback_and_roundtrip [⟨1, "g", 0, 10, 2⟩] "bar" (by decide)
     (JValue.num 3) (fun xs h => nomatch h) (fun m h => nomatch h)⟩

/-- Counterexample to claim C9 as stated: `setMode` is the bare state
setter and performs no validation, so on the unrecognized value
`"zigzag"` the mutation is NOT rejected and the stored mode changes. -/
theorem setMode_accepts_invalid_value :
    setMode "zigzag" exampleState = (⟨"a", "x", [], "zigzag"⟩ : AppState) ∧
    setMode "zigzag" exampleState ≠ exampleState ∧
    ("zigzag" : String) ≠ "circular" ∧ ("zigzag" : String) ≠ "bar" := by
  decide

/-- Claim C9 (amended): `setMode` stores any provided value unvalidated
(there is no `InvalidMode` rejection path); it has three in-app callers:
the Circular and Gradient Bar toggle buttons (App.jsx 340, 346), which
pass exactly the two recognized `DisplayMode` values, and the load
effect (App.jsx 219, `if (s.mode) setMode(s.mode)`), which forwards any
truthy persisted mode value — here even the non-string `7` — to
`setMode` without validating it against the enumeration.  So the stored
mode stays within the two enumerants only for toggle-driven changes. -/
theorem setMode_unvalidated_callers (m : String) (s : AppState)
    (v : JValue) (hv : truthy v = true) :
    setMode m s = { s with mode := m } ∧
    (setMode m s).trackers = s.trackers ∧
    (clickCircular s).mode = "circular" ∧
    (clickBar s).mode = "bar" ∧
    loadModeField (JValue.obj [("mode", v)]) = v :=
  ⟨rfl, rfl, rfl, rfl, by simp [loadModeField, getField, lookupField, hv]⟩

/-- Witness for `setMode_unvalidated_callers` with the unrecognized mode
text `"zigzag"` and the truthy non-string persisted value `7`. -/
theorem setMode_unvalidated_callers_witness :
    truthy (JValue.num 7) = true ∧
    (setMode "zigzag" exampleState
        = { exampleState with mode := "zigzag" } ∧
     (setMode "zigzag" exampleState).trackers = exampleState.trackers ∧
     (clickCircular exampleState).mode = "circular" ∧
     (clickBar exampleState).mode = "bar" ∧
     loadModeField (JValue.obj [("mode", JValue.num 7)]) = JValue.num 7) :=
  ⟨rfl, setMode_unvalidated_callers "zigzag" exampleState (JValue.num 7) rfl⟩

/-- Claim C10: the quote list has exactly 10 entries, and every tracker
produced by a successful create carries
`quoteIndex = floor(rand * 10)` with `0 ≤ rand < 1`, hence a valid index
into `QUOTES`; and (final conjunct) the bound is NOT re-validated for
trackers rehydrated from a persisted snapshot — a stored record with
`quoteIndex = 999` is loaded as-is. -/
theorem quoteIndex_in_bounds (dayjsValueOf : String → Option Int)
    (nowMs : Int) (rand : Rat) (s : AppState) (dl : Int)
    (hr0 : 0 ≤ rand) (hr1 : rand < 1)
    (hg : jsTrim s.goalInput ≠ "") (hd : s.deadlineInput ≠ "")
    (hp : dayjsValueOf s.deadlineInput = some dl) (hfut : nowMs < dl) :
    QUOTES.length = 10 ∧
    (handleAddTracker dayjsValueOf nowMs rand s).1.trackers
      = s.trackers ++ [newTrackerOf nowMs rand s.goalInput dl] ∧
    0 ≤ (newTrackerOf nowMs rand s.goalInput dl).quoteIndex ∧
    (newTrackerOf nowMs rand s.goalInput dl).quoteIndex < 10 ∧
    ((newTrackerOf nowMs rand s.goalInput dl).quoteIndex).toNat
      < QUOTES.length ∧
    (loadState (some (serializeState [⟨0, "g", 0, 1, 999⟩] "bar"))).1
      = [encodeTracker ⟨0, "g", 0, 1, 999⟩] := by
  have hlen : ((QUOTES.length : Nat) : Rat) = 10 := by norm_num [QUOTES]
  have h0 : 0 ≤ Int.floor (rand * (QUOTES.length : Rat)) :=
    Int.floor_nonneg.mpr (mul_nonneg hr0 (by positivity))
  have h10 : Int.floor (rand * (QUOTES.length : Rat)) < 10 := by
    apply Int.floor_lt.mpr
    rw [hlen]
    have h : rand * 10 < 10 := by linarith
    exact_mod_cast h
  refine ⟨rfl, ?_, h0, h10, ?_, rfl⟩
  · rw [handleAddTracker_success dayjsValueOf nowMs rand s dl hg hd hp hfut]
  · show (Int.floor (rand * (QUOTES.length : Rat))).toNat < QUOTES.length
    have hlt : (Int.floor (rand * (QUOTES.length : Rat))).toNat < 10 := by
      omega
    exact hlt

/-- Witness for `quoteIndex_in_bounds` at `rand = 0` with a create at
instant 5 on the empty collection. -/
theorem quoteIndex_in_bounds_witness :
    (0 : Rat) ≤ 0 ∧ (0 : Rat) < 1 ∧
    (QUOTES.length = 10 ∧
     (handleAddTracker exampleParse 5 0 exampleState).1.trackers
       = exampleState.trackers ++
           [newTrackerOf 5 0 exampleState.goalInput 1000000] ∧
     0 ≤ (newTrackerOf 5 0 exampleState.goalInput 1000000).quoteIndex ∧
     (newTrackerOf 5 0 exampleState.goalInput 1000000).quoteIndex < 10 ∧
     ((newTrackerOf 5 0 exampleState.goalInput 1000000).quoteIndex).toNat
       < QUOTES.length ∧
     (loadState (some (serializeState [⟨0, "g", 0, 1, 999⟩] "bar"))).1
       = [encodeTracker ⟨0, "g", 0, 1, 999⟩]) :=
  ⟨le_refl 0, zero_lt_one,
   quoteIndex_in_bounds exampleParse 5 0 exampleState 1000000
     (le_refl 0) zero_lt_one (by decide) (by decide) rfl (by decide)⟩
